import Mathlib

/-!
Shallow embedding of the adaptive performance-boost engine of `src/power.cpp`
(an Android power HAL module): the touch/vsync cadence state machine of
`power_hint`, the schedtune debounce engine (`schedtune_boost`,
`schedtune_deboost_thread`, `schedtune_power_init`), and the attribute I/O
primitives (`sysfs_write`, `sysfs_read`).

Timestamps are modelled as `Int` nanoseconds of CLOCK_MONOTONIC, exactly as
produced by `clock_gettime` / `gettime_ns` in the source.  The source compares
`diff` values in *milliseconds* computed as a `double`
(`(sec)*1000 + nsec/1e6`); for timestamps of realistic magnitude this double
is an exact rational `ns/10^6`, so the source comparison `diff < K` (for an
integer threshold `K` in ms) is equivalent to the integer comparison
`ns < K * 10^6`, which is how the thresholds appear below.
-/

set_option autoImplicit false
set_option maxRecDepth 8000

namespace PowerHAL

/-- `#define SHORT_TOUCH_TIME 20` (ms). -/
def SHORT_TOUCH_TIME : Int := 20

/-- `#define LONG_TOUCH_TIME 100` (ms). -/
def LONG_TOUCH_TIME : Int := 100

/-- `#define VSYNC_BOOST_COUNT 4`. -/
def VSYNC_BOOST_COUNT : Int := 4

/-- `#define VSYNC_TOUCH_TIME 30` (ms). -/
def VSYNC_TOUCH_TIME : Int := 30

/-- `#define SCHEDTUNE_BOOST_TIME_NS 1000000000LL` (1 s in ns). -/
def SCHEDTUNE_BOOST_TIME_NS : Int := 1000000000

/-- `#define TOUCHBOOST_PULSE_SYSFS ...`. -/
def TOUCHBOOST_PULSE_SYSFS : String :=
  "/sys/devices/system/cpu/cpufreq/interactive/touchboostpulse"

/-- `#define SCHEDTUNE_BOOST_PATH ...`. -/
def SCHEDTUNE_BOOST_PATH : String := "/dev/stune/foreground/schedtune.boost"

/-- `#define SCHEDTUNE_BOOST_NORM "10"`. -/
def SCHEDTUNE_BOOST_NORM : String := "10"

/-- `#define SCHEDTUNE_BOOST_INTERACTIVE "40"`. -/
def SCHEDTUNE_BOOST_INTERACTIVE : String := "40"

/-- Milliseconds-to-nanoseconds scale used when comparing a nanosecond
difference against a millisecond threshold (see the module comment). -/
def MS : Int := 1000000

/-- `SHORT_TOUCH_TIME` in nanoseconds. -/
def SHORT_TOUCH_TIME_NS : Int := 20000000

/-- `LONG_TOUCH_TIME` in nanoseconds. -/
def LONG_TOUCH_TIME_NS : Int := 100000000

/-- `VSYNC_TOUCH_TIME` in nanoseconds. -/
def VSYNC_TOUCH_TIME_NS : Int := 30000000

/-- The touch/vsync cadence state mutated by `power_hint`: the fields
`touchboost_disable`, `timer_set`, `vsync_boost` of `struct intel_power_module`
together with the function-static variables `vsync_count`,
`consecutive_touch_int`, `prev_time` and `curr_time`.  All integer fields are
C `int`s holding small values, modelled as `Int`.  `curr_time` is the static
`struct timespec curr_time` (last interaction instant, read by the vsync
path); `prev_time` is the static `prev_time` (subtracted to form `diff`).
The static `vsync_time` is written and read only inside one vsync dispatch,
so it is kept local to `vsyncStep` rather than stored. -/
structure TouchState where
  touchboost_disable : Int
  timer_set : Int
  vsync_boost : Int
  vsync_count : Int
  consecutive_touch_int : Int
  prev_time : Int
  curr_time : Int
  deriving Repr, DecidableEq

/-- The state at module load: the struct initializer sets
`touchboost_disable`, `timer_set`, `vsync_boost` to 0; the statics
`vsync_count`, `consecutive_touch_int` are zero-initialized; the statics
`prev_time` and `curr_time` are `{0,0}`. -/
def initialTouchState : TouchState :=
  { touchboost_disable := 0
    timer_set := 0
    vsync_boost := 0
    vsync_count := 0
    consecutive_touch_int := 0
    prev_time := 0
    curr_time := 0 }

/-- `power_hint`, `case POWER_HINT_INTERACTION`, on the `interactiveActive`
path (source lines 307–336).  `now` is the value `clock_gettime` stores in
`curr_time`.  Returns the new state together with the list of values written
to `TOUCHBOOST_PULSE_SYSFS` during the call. -/
def interactionStep (s : TouchState) (now : Int) : TouchState × List String :=
  -- clock_gettime(CLOCK_MONOTONIC, &curr_time);
  -- diff = (curr_time - prev_time) in ms; prev_time = curr_time;
  let diffNs : Int := now - s.prev_time
  let s1 := { s with curr_time := now, prev_time := now }
  let s2 :=
    if diffNs < SHORT_TOUCH_TIME_NS then
      { s1 with consecutive_touch_int := s1.consecutive_touch_int + 1 }
    else if diffNs > LONG_TOUCH_TIME_NS then
      { s1 with vsync_boost := 0, timer_set := 0, touchboost_disable := 0,
                vsync_count := 0, consecutive_touch_int := 0 }
    else s1
  -- Simple touch / scroll classification
  let s3 :=
    if diffNs < SHORT_TOUCH_TIME_NS ∧ s2.touchboost_disable = 0 ∧
        s2.consecutive_touch_int > 4 then
      { s2 with touchboost_disable := 1 }
    else s2
  -- Scrolling: timer rate flag
  let s4 :=
    if s3.touchboost_disable = 1 ∧ s3.consecutive_touch_int > 15 ∧
        s3.timer_set = 0 then
      { s3 with timer_set := 1 }
    else s3
  if s4.touchboost_disable = 0 then (s4, ["1"]) else (s4, [])

/-- `power_hint`, `case POWER_HINT_VSYNC`, on the `interactiveActive` path
(source lines 342–360).  `now` is the value `clock_gettime` stores in the
local static `vsync_time`; `dataNonNull` is `(unsigned long)data != 0`.
Returns the new state and the values written to `TOUCHBOOST_PULSE_SYSFS`. -/
def vsyncStep (s : TouchState) (now : Int) (dataNonNull : Bool) :
    TouchState × List String :=
  let s1 :=
    if s.touchboost_disable = 1 then
      let diffNs : Int := now - s.curr_time
      if diffNs > VSYNC_TOUCH_TIME_NS then
        { s with timer_set := 0, vsync_boost := 1, touchboost_disable := 0,
                 vsync_count := VSYNC_BOOST_COUNT }
      else s
    else s
  if s1.vsync_boost ≠ 0 then
    if dataNonNull = true ∧ s1.vsync_count > 0 then
      let s2 := { s1 with vsync_count := s1.vsync_count - 1 }
      let s3 := if s2.vsync_count = 0 then { s2 with vsync_boost := 0 } else s2
      (s3, ["1"])
    else (s1, [])
  else (s1, [])

/-- One hint event delivered to the touch/vsync state machine (pulse-boost
available, i.e. `interactiveActive` true). -/
inductive HintEv where
  | interaction (now : Int)
  | vsync (now : Int) (dataNonNull : Bool)
  deriving Repr, DecidableEq

/-- Deliver one hint event to the cadence state. -/
def touchStep (s : TouchState) : HintEv → TouchState
  | .interaction t => (interactionStep s t).1
  | .vsync t d => (vsyncStep s t d).1

/-- Run a sequence of hint events from a state. -/
def runTouch (s : TouchState) : List HintEv → TouchState
  | [] => s
  | e :: rest => runTouch (touchStep s e) rest

/-- The states visited after each successive event of a run. -/
def touchTrajectory (s : TouchState) : List HintEv → List TouchState
  | [] => []
  | e :: rest => touchStep s e :: touchTrajectory (touchStep s e) rest

/-- The cadence state immediately after a long-gap (`diff > LONG_TOUCH_TIME`)
interaction hint at time `t0`: all flags and counters at their initial
values, last-interaction timestamps equal to `t0`.  `initialTouchState` is
`resetState 0`. -/
def resetState (t0 : Int) : TouchState :=
  { touchboost_disable := 0
    timer_set := 0
    vsync_boost := 0
    vsync_count := 0
    consecutive_touch_int := 0
    prev_time := t0
    curr_time := t0 }

/-! ## Scheduler Boost Engine (`schedtune_boost`, `schedtune_deboost_thread`,
`schedtune_power_init`)

`schedtune_boost` and the worker thread both run under `intel->lock`, so
their interleaving is a sequence of atomic critical sections ordered by
time.  `deboost_run` below executes that interleaving deterministically
under the idealization that `nanosleep_ns` wakes exactly at the requested
instant and that critical sections are instantaneous: the worker checks
`deboost_time` at its wake instant, and every `schedtune_boost` call that
happened strictly before that instant has already been applied (each at its
own call time, since the worker does not hold the lock while sleeping). -/

/-- Result of one `schedtune_boost` call (source lines 231–242): the new
`deboost_time`, the values written to `SCHEDTUNE_BOOST_PATH` by
`schedtune_sysfs_boost`, and whether `sem_post(&intel->signal_lock)` was
executed. -/
structure BoostCall where
  deboost_time : Int
  writes : List String
  posted : Bool
  deriving Repr, DecidableEq

/-- `schedtune_boost`: if no deboost is pending (`!intel->deboost_time`),
write the interactive level and post the signal; unconditionally set
`deboost_time = now + SCHEDTUNE_BOOST_TIME_NS`. -/
def schedtune_boost (deboost_time : Int) (now : Int) : BoostCall :=
  if deboost_time = 0 then
    { deboost_time := now + SCHEDTUNE_BOOST_TIME_NS
      writes := [SCHEDTUNE_BOOST_INTERACTIVE]
      posted := true }
  else
    { deboost_time := now + SCHEDTUNE_BOOST_TIME_NS
      writes := []
      posted := false }

/-- Interleaved execution of `schedtune_deboost_thread`'s inner loop (source
lines 206–229) with a schedule of `schedtune_boost` call instants `boosts`.
The worker is inside its inner loop, checking the deadline at instant `now`
with current deadline `deboost_time`; boost calls at instants `≤ now` have
already run (each at its own instant, while the worker slept).  Returns the
timestamped log of all writes to `SCHEDTUNE_BOOST_PATH` (by boost calls and
by the worker).  `fuel` bounds the number of worker iterations. -/
def deboost_run (boosts : List Int) (deboost_time : Int) (now : Int) :
    Nat → List (Int × String)
  | 0 => []
  | fuel + 1 =>
    let due := boosts.filter (fun t => t ≤ now)
    let rest := boosts.filter (fun t => now < t)
    -- boost calls serialized by intel->lock, applied in time order
    let folded := due.foldl
      (fun (p : Int × List (Int × String)) t =>
        let c := schedtune_boost p.1 t
        (c.deboost_time, p.2 ++ c.writes.map (fun v => (t, v))))
      (deboost_time, [])
    if folded.1 > now then
      -- deadline in the future: sleep until it, then re-check (continue)
      folded.2 ++ deboost_run rest folded.1 folded.1 fuel
    else
      -- deadline passed: write the normal level, reset, break to sem_wait;
      -- the next boost call (if any) finds deboost_time = 0 and posts the
      -- signal, waking the worker at that call's instant
      folded.2 ++ [(now, SCHEDTUNE_BOOST_NORM)] ++
        (match rest with
         | [] => []
         | t :: _ => deboost_run rest 0 t fuel)

/-- State established by a successful `schedtune_power_init` (source lines
244–260): `deboost_time = 0`, the wake semaphore initialized by
`sem_init(&intel->signal_lock, 0, 1)` to value 1, and the worker thread
spawned. -/
structure SchedInit where
  deboost_time : Int
  sem_value : Nat
  threadSpawned : Bool
  deriving Repr, DecidableEq

/-- `schedtune_power_init`: sets `deboost_time = 0`, `sem_init(.., 0, 1)`,
opens `SCHEDTUNE_BOOST_PATH`; on open failure closes the semaphore and
reports failure (`none`), otherwise spawns `schedtune_deboost_thread`. -/
def schedtune_power_init (openOk : Bool) : Option SchedInit :=
  if openOk then some { deboost_time := 0, sem_value := 1, threadSpawned := true }
  else none

/-- The worker thread's start-up behaviour: its first `sem_wait` succeeds
immediately iff the semaphore value is positive, in which case it runs one
round of the inner loop (with no boost calls scheduled) and then blocks; if
the value were 0 it would block at once, producing no writes. -/
def worker_startup (ini : SchedInit) (t0 : Int) : List (Int × String) :=
  if ini.sem_value > 0 then deboost_run [] ini.deboost_time t0 1 else []

/-! ## Attribute I/O (`sysfs_write`, `sysfs_read`) -/

/-- The system-call behaviour visible to one `sysfs_write`/`sysfs_read`
call: whether `open` succeeds (and with which descriptor), and the return
value of the single `write`/`read` performed on it. -/
structure SysfsEnv where
  openFd : Option Nat
  rwRet : Int
  deriving Repr, DecidableEq

/-- File-descriptor events performed by a `sysfs_write`/`sysfs_read` call. -/
inductive FdEv where
  | opened (fd : Nat)
  | closed (fd : Nat)
  deriving Repr, DecidableEq

/-- `sysfs_write(path, s)` (source lines 93–115): open; on failure log and
return -1; write `strlen(s)` bytes; if the return is negative, log, close
and return -1; otherwise close and return 0.  The returned list is the
sequence of fd operations performed. -/
def sysfs_write (env : SysfsEnv) (_path : String) (_s : String) :
    Int × List FdEv :=
  match env.openFd with
  | none => (-1, [])
  | some fd =>
    if env.rwRet < 0 then (-1, [.opened fd, .closed fd])
    else (0, [.opened fd, .closed fd])

/-- `sysfs_read(path, s, length)` (source lines 117–139): same shape as
`sysfs_write`, with a single `read` of at most `length` bytes. -/
def sysfs_read (env : SysfsEnv) (_path : String) (_length : Int) :
    Int × List FdEv :=
  match env.openFd with
  | none => (-1, [])
  | some fd =>
    if env.rwRet < 0 then (-1, [.opened fd, .closed fd])
    else (0, [.opened fd, .closed fd])

/-! ## Hint Dispatcher (`power_hint`) -/

/-- The hint kinds dispatched by `power_hint` (the app-launch case is
compiled out unless `APP_LAUNCH_BOOST` is defined; `other` covers it and
the `default` branch). -/
inductive PowerHint where
  | interaction
  | vsync
  | low_power
  | other
  deriving Repr, DecidableEq

/-- Observable actions of one `power_hint` call, in program order. -/
inductive DispatchEv where
  | lock
  | unlock
  | pulseWrite (v : String)
  | schedWrite (v : String)
  | semPost
  deriving Repr, DecidableEq

/-- The mutable module state touched by `power_hint`: the cadence state and
the scheduler-boost deadline. -/
structure IntelModule where
  touch : TouchState
  deboost_time : Int
  deriving Repr, DecidableEq

/-- `power_hint` (source lines 286–376): takes the capability flags probed
at init (`interactiveActive`, `intelSchedBoostActive`), the module state, a
hint, the current instant and the payload's null/non-null status; returns
the new state and the ordered list of observable actions (lock/unlock,
attribute writes, semaphore post). -/
def power_hint (interactiveActive intelSchedBoostActive : Bool)
    (m : IntelModule) (hint : PowerHint) (now : Int) (dataNonNull : Bool) :
    IntelModule × List DispatchEv :=
  match hint with
  | .interaction =>
    if interactiveActive = false then
      if intelSchedBoostActive = false then (m, [.lock, .unlock])
      else
        let c := schedtune_boost m.deboost_time now
        ({ m with deboost_time := c.deboost_time },
         [.lock] ++ c.writes.map DispatchEv.schedWrite ++
           (if c.posted then [.semPost] else []) ++ [.unlock])
    else
      let r := interactionStep m.touch now
      ({ m with touch := r.1 },
       [.lock] ++ r.2.map DispatchEv.pulseWrite ++ [.unlock])
  | .vsync =>
    if interactiveActive = false then
      -- pthread_mutex_unlock before the early return
      (m, [.lock, .unlock])
    else
      let r := vsyncStep m.touch now dataNonNull
      ({ m with touch := r.1 },
       [.lock] ++ r.2.map DispatchEv.pulseWrite ++ [.unlock])
  | .low_power => (m, [.lock, .unlock])
  | .other => (m, [.lock, .unlock])

/-! ## Derived run/observation functions and concrete inputs -/

/-- The pulse-attribute writes performed by one hint event. -/
def touchStepWrites (s : TouchState) : HintEv → List String
  | .interaction t => (interactionStep s t).2
  | .vsync t d => (vsyncStep s t d).2

/-- The pulse-attribute writes of each successive hint of a run. -/
def touchWrites (s : TouchState) : List HintEv → List (List String)
  | [] => []
  | e :: rest => touchStepWrites s e :: touchWrites (touchStep s e) rest

/-- 21 ms in nanoseconds. -/
def GAP21_NS : Int := 21000000

/-- `spaced21 prev ts`: each instant of `ts` is at least 21 ms after its
predecessor (`prev` being the predecessor of the first). -/
def spaced21 : Int → List Int → Prop
  | _, [] => True
  | prev, t :: ts => GAP21_NS ≤ t - prev ∧ spaced21 t ts

/-- Invariant of the cadence state maintained by both hint handlers:
`vsync_count` is nonnegative, `vsync_boost` is boolean-valued, and a
positive pulse count implies vsync-boost mode. -/
def touchInv (s : TouchState) : Prop :=
  0 ≤ s.vsync_count ∧ (s.vsync_boost = 0 ∨ s.vsync_boost = 1) ∧
  (0 < s.vsync_count → s.vsync_boost = 1)

/-- A concrete monotonically-timed hint schedule: a fresh touch at 1000 ms,
six sub-20 ms taps (scroll mode entered at the sixth tap of the burst), a
vsync 31 ms after the last tap (enters vsync-boost mode), an interaction
60 ms later, then another one 10 ms after it (re-entering scroll mode while
vsync-boost mode is still active). -/
def scrollVsyncTrace : List HintEv :=
  [ .interaction 1000000000
  , .interaction 1010000000
  , .interaction 1020000000
  , .interaction 1030000000
  , .interaction 1040000000
  , .interaction 1050000000
  , .interaction 1060000000
  , .vsync 1091000000 false
  , .interaction 1120000000
  , .interaction 1130000000 ]

/-- A concrete scroll-mode state: the one reached by the first seven events
of `scrollVsyncTrace` (six fast taps after a fresh touch). -/
def scrollState : TouchState :=
  { touchboost_disable := 1
    timer_set := 0
    vsync_boost := 0
    vsync_count := 0
    consecutive_touch_int := 6
    prev_time := 1060000000
    curr_time := 1060000000 }

/-! ## Theorems -/

theorem SHORT_TOUCH_TIME_NS_eq : SHORT_TOUCH_TIME_NS = SHORT_TOUCH_TIME * MS := rfl

theorem LONG_TOUCH_TIME_NS_eq : LONG_TOUCH_TIME_NS = LONG_TOUCH_TIME * MS := rfl

theorem VSYNC_TOUCH_TIME_NS_eq : VSYNC_TOUCH_TIME_NS = VSYNC_TOUCH_TIME * MS := rfl

theorem GAP21_NS_eq : GAP21_NS = 21 * MS := rfl

theorem initialTouchState_eq_resetState : initialTouchState = resetState 0 := rfl

/-- `scrollState` is reachable: it is the state after the first seven events
of `scrollVsyncTrace`. -/
theorem scrollState_reachable :
    runTouch initialTouchState (scrollVsyncTrace.take 7) = scrollState := by decide

/-- A fast tap (`diff < SHORT_TOUCH_TIME`) outside scroll mode with at most
three previous consecutive fast taps: increments the counter and writes one
pulse. -/
theorem interactionStep_fast (s : TouchState) (now : Int)
    (hf : now - s.prev_time < SHORT_TOUCH_TIME_NS)
    (hd : s.touchboost_disable = 0)
    (hc4 : s.consecutive_touch_int + 1 ≤ 4) :
    interactionStep s now =
      ({ s with prev_time := now
                curr_time := now
                consecutive_touch_int := s.consecutive_touch_int + 1 }, ["1"]) := by
  simp only [interactionStep]
  rw [if_pos hf]
  simp only [hd]
  split_ifs <;> simp_all <;> omega

/-- A fast tap outside scroll mode whose increment takes the counter above 4
(but at most 15): enters scroll mode and writes nothing. -/
theorem interactionStep_fast_enter (s : TouchState) (now : Int)
    (hf : now - s.prev_time < SHORT_TOUCH_TIME_NS)
    (hd : s.touchboost_disable = 0)
    (hc4 : s.consecutive_touch_int + 1 > 4)
    (hc15 : s.consecutive_touch_int + 1 ≤ 15) :
    interactionStep s now =
      ({ s with prev_time := now
                curr_time := now
                consecutive_touch_int := s.consecutive_touch_int + 1
                touchboost_disable := 1 }, []) := by
  simp only [interactionStep]
  rw [if_pos hf]
  simp only [hd]
  split_ifs <;> simp_all
  omega

/-- A non-fast interaction hint from a zero-counter, non-scroll state keeps
the counter at 0 and scroll mode off, and records the hint's instant. -/
theorem interactionStep_slow_zero (s : TouchState) (now : Int)
    (hf : ¬ (now - s.prev_time < SHORT_TOUCH_TIME_NS))
    (hc : s.consecutive_touch_int = 0) (hd : s.touchboost_disable = 0) :
    (interactionStep s now).1.consecutive_touch_int = 0 ∧
    (interactionStep s now).1.touchboost_disable = 0 ∧
    (interactionStep s now).1.prev_time = now := by
  simp only [interactionStep]
  rw [if_neg hf]
  split_ifs <;> simp_all

/-- From a scroll-mode state, an interaction hint that leaves scroll mode
active writes no pulse. -/
theorem interactionStep_scrollHold (s : TouchState) (now : Int)
    (hd : s.touchboost_disable = 1) :
    (interactionStep s now).1.touchboost_disable = 1 →
    (interactionStep s now).2 = [] := by
  simp only [interactionStep]
  split_ifs <;> simp_all

/-- A non-null-payload vsync hint in vsync-boost mode with more than one
pulse remaining: writes one pulse and decrements the counter. -/
theorem vsyncStep_boost_dec (s : TouchState) (now : Int)
    (hd : s.touchboost_disable ≠ 1) (hb : s.vsync_boost ≠ 0)
    (hc : 0 < s.vsync_count) (hc1 : s.vsync_count ≠ 1) :
    vsyncStep s now true = ({ s with vsync_count := s.vsync_count - 1 }, ["1"]) := by
  simp only [vsyncStep]
  rw [if_neg hd]
  split_ifs <;> simp_all
  omega

/-- A non-null-payload vsync hint in vsync-boost mode with exactly one pulse
remaining: writes the last pulse and exits vsync-boost mode. -/
theorem vsyncStep_boost_last (s : TouchState) (now : Int)
    (hd : s.touchboost_disable ≠ 1) (hb : s.vsync_boost ≠ 0)
    (hc : s.vsync_count = 1) :
    vsyncStep s now true =
      ({ s with vsync_count := 0
                vsync_boost := 0 }, ["1"]) := by
  simp only [vsyncStep]
  rw [if_neg hd]
  split_ifs <;> simp_all

/-- A vsync hint outside both scroll mode and vsync-boost mode does nothing. -/
theorem vsyncStep_idle (s : TouchState) (now : Int) (d : Bool)
    (hd : s.touchboost_disable ≠ 1) (hb : s.vsync_boost = 0) :
    vsyncStep s now d = (s, []) := by
  simp only [vsyncStep]
  rw [if_neg hd]
  split_ifs <;> simp_all

/-- `touchInv` holds initially. -/
theorem touchInv_initial : touchInv initialTouchState :=
  ⟨le_refl 0, Or.inl rfl, fun h => absurd h (by decide)⟩

/-- The interaction handler preserves `touchInv`. -/
theorem touchInv_interaction (s : TouchState) (now : Int) (h : touchInv s) :
    touchInv (interactionStep s now).1 := by
  simp only [interactionStep, touchInv] at *
  split_ifs <;> simp_all

/-- The vsync handler preserves `touchInv`. -/
theorem touchInv_vsync (s : TouchState) (now : Int) (d : Bool) (h : touchInv s) :
    touchInv (vsyncStep s now d).1 := by
  simp only [vsyncStep, touchInv, VSYNC_BOOST_COUNT] at *
  split_ifs <;> simp_all <;> omega

/-- `touchInv` holds along every run. -/
theorem touchInv_run : ∀ (evs : List HintEv) (s : TouchState), touchInv s →
    touchInv (runTouch s evs)
  | [], _, h => h
  | .interaction t :: rest, s, h =>
    touchInv_run rest _ (touchInv_interaction s t h)
  | .vsync t d :: rest, s, h =>
    touchInv_run rest _ (touchInv_vsync s t d h)

/-- C1: with the 1 s (`SCHEDTUNE_BOOST_TIME_NS`) debounce window, two
`schedtune_boost` calls at t = 0 (when `deboost_time` was 0) and
t = 500 ms produce exactly one write of the interactive level `"40"`,
at t = 0, and exactly one write of the normal level `"10"`, by the worker
at t = 1500 ms (the deadline as extended by the second call) — in
particular no write happens at t = 1000 ms. -/
theorem C1_debounce_two_calls :
    deboost_run [0, 500000000] 0 0 5 =
      [(0, SCHEDTUNE_BOOST_INTERACTIVE), (1500000000, SCHEDTUNE_BOOST_NORM)] ∧
    (deboost_run [0, 500000000] 0 0 5).all (fun p => p.1 != 1000000000) = true := by
  refine ⟨by decide, by decide⟩

/-- C3 (counterexample): the claimed two-part invariant fails on a reachable
state: after `scrollVsyncTrace` the state has `touchboost_disable = 1` and
`vsync_boost = 1` (scroll mode re-entered while vsync-boost mode is still
active, because `consecutive_touch_int` is not reset on vsync-boost entry). -/
theorem C3_invariant_counterexample :
    ¬ (∀ evs : List HintEv,
        (0 < (runTouch initialTouchState evs).vsync_count →
          (runTouch initialTouchState evs).vsync_boost = 1) ∧
        ((runTouch initialTouchState evs).touchboost_disable = 1 →
          (runTouch initialTouchState evs).vsync_boost = 0)) := by
  intro h
  have h2 := (h scrollVsyncTrace).2 (by decide)
  exact absurd h2 (by decide)

/-- C3 (amended): the first half of the claimed invariant does hold of every
reachable cadence state: a positive `vsync_count` implies
`vsync_boost = 1`. -/
theorem C3_count_pos_implies_boost (evs : List HintEv)
    (h : 0 < (runTouch initialTouchState evs).vsync_count) :
    (runTouch initialTouchState evs).vsync_boost = 1 :=
  (touchInv_run evs initialTouchState touchInv_initial).2.2 h

/-- Witness for `C3_count_pos_implies_boost` at the concrete schedule
`scrollVsyncTrace`, whose final state has `vsync_count = 4`. -/
theorem C3_count_pos_implies_boost_witness :
    0 < (runTouch initialTouchState scrollVsyncTrace).vsync_count ∧
    (runTouch initialTouchState scrollVsyncTrace).vsync_boost = 1 :=
  ⟨by decide, C3_count_pos_implies_boost scrollVsyncTrace (by decide)⟩

/-- C8: a vsync hint delivered while pulse-boost is unavailable
(`interactiveActive = false`) leaves the module state unchanged, writes no
attribute, and the dispatch lock is acquired and then released before the
early return. -/
theorem C8_vsync_ignored_when_unavailable (sched : Bool) (m : IntelModule)
    (now : Int) (d : Bool) :
    power_hint false sched m .vsync now d = (m, [.lock, .unlock]) := rfl

/-- C9: `vsync_count` never becomes negative in any state reachable from the
initial state by interaction and vsync hints. -/
theorem C9_vsync_count_nonneg (evs : List HintEv) :
    0 ≤ (runTouch initialTouchState evs).vsync_count :=
  (touchInv_run evs initialTouchState touchInv_initial).1

/-- C10: a successful `schedtune_power_init` creates the wake semaphore with
initial value 1 and `deboost_time = 0`; consequently the worker passes its
first `sem_wait` immediately and performs exactly one write of the normal
level (at its start instant `t0`, with the deadline still 0) before
blocking. -/
theorem C10_worker_initial_demote (t0 : Int) (h : 0 ≤ t0) :
    schedtune_power_init true =
      some { deboost_time := 0, sem_value := 1, threadSpawned := true } ∧
    worker_startup { deboost_time := 0, sem_value := 1, threadSpawned := true } t0 =
      [(t0, SCHEDTUNE_BOOST_NORM)] := by
  refine ⟨rfl, ?_⟩
  have hlt : ¬ ((0 : Int) > t0) := by omega
  simp [worker_startup, deboost_run, hlt]

/-- Witness for `C10_worker_initial_demote` at `t0 = 0`. -/
theorem C10_worker_initial_demote_witness :
    schedtune_power_init true =
      some { deboost_time := 0, sem_value := 1, threadSpawned := true } ∧
    worker_startup { deboost_time := 0, sem_value := 1, threadSpawned := true } 0 =
      [(0, SCHEDTUNE_BOOST_NORM)] :=
  C10_worker_initial_demote 0 (by decide)

/-- C2: from a reset cadence state whose recorded last-interaction instant is
`t0`, five interaction hints each under 20 ms after their predecessor leave
scroll mode off through the first four (each writing one pulse) and enter
scroll mode exactly on the fifth, which writes nothing; and from any
scroll-mode state, an interaction hint that leaves scroll mode active writes
no pulse. -/
theorem C2_five_fast_taps (t0 t1 t2 t3 t4 t5 : Int)
    (h1 : t1 - t0 < SHORT_TOUCH_TIME_NS)
    (h2 : t2 - t1 < SHORT_TOUCH_TIME_NS)
    (h3 : t3 - t2 < SHORT_TOUCH_TIME_NS)
    (h4 : t4 - t3 < SHORT_TOUCH_TIME_NS)
    (h5 : t5 - t4 < SHORT_TOUCH_TIME_NS) :
    (touchTrajectory (resetState t0)
        [.interaction t1, .interaction t2, .interaction t3, .interaction t4,
         .interaction t5]).map TouchState.touchboost_disable = [0, 0, 0, 0, 1] ∧
    touchWrites (resetState t0)
        [.interaction t1, .interaction t2, .interaction t3, .interaction t4,
         .interaction t5] = [["1"], ["1"], ["1"], ["1"], []] ∧
    (∀ (s : TouchState) (now : Int), s.touchboost_disable = 1 →
      (interactionStep s now).1.touchboost_disable = 1 →
      (interactionStep s now).2 = []) := by
  have e1 : interactionStep (resetState t0) t1 =
      (⟨0, 0, 0, 0, 1, t1, t1⟩, ["1"]) :=
    interactionStep_fast _ _ h1 rfl (by norm_num [resetState])
  have e2 : interactionStep ⟨0, 0, 0, 0, 1, t1, t1⟩ t2 =
      (⟨0, 0, 0, 0, 2, t2, t2⟩, ["1"]) :=
    interactionStep_fast _ _ h2 rfl (by norm_num)
  have e3 : interactionStep ⟨0, 0, 0, 0, 2, t2, t2⟩ t3 =
      (⟨0, 0, 0, 0, 3, t3, t3⟩, ["1"]) :=
    interactionStep_fast _ _ h3 rfl (by norm_num)
  have e4 : interactionStep ⟨0, 0, 0, 0, 3, t3, t3⟩ t4 =
      (⟨0, 0, 0, 0, 4, t4, t4⟩, ["1"]) :=
    interactionStep_fast _ _ h4 rfl (by norm_num)
  have e5 : interactionStep ⟨0, 0, 0, 0, 4, t4, t4⟩ t5 =
      (⟨1, 0, 0, 0, 5, t5, t5⟩, []) :=
    interactionStep_fast_enter _ _ h5 rfl (by norm_num) (by norm_num)
  refine ⟨?_, ?_, fun s now hd => interactionStep_scrollHold s now hd⟩
  · simp [touchTrajectory, touchStep, e1, e2, e3, e4, e5]
  · simp [touchWrites, touchStepWrites, touchStep, e1, e2, e3, e4, e5]

/-- Witness for `C2_five_fast_taps` at gaps of 10 ms from `t0 = 0`. -/
theorem C2_five_fast_taps_witness :
    (touchTrajectory (resetState 0)
        [.interaction 10000000, .interaction 20000000, .interaction 30000000,
         .interaction 40000000, .interaction 50000000]).map
      TouchState.touchboost_disable = [0, 0, 0, 0, 1] ∧
    touchWrites (resetState 0)
        [.interaction 10000000, .interaction 20000000, .interaction 30000000,
         .interaction 40000000, .interaction 50000000] =
      [["1"], ["1"], ["1"], ["1"], []] := by
  have h := C2_five_fast_taps 0 10000000 20000000 30000000 40000000 50000000
    (by decide) (by decide) (by decide) (by decide) (by decide)
  exact ⟨h.1, h.2.1⟩

/-- C4: in vsync-boost mode with 4 pulses remaining (and scroll mode off),
each of four non-null-payload vsync hints writes one pulse and decrements
the counter, the fourth decrement (to 0) also exiting vsync-boost mode; a
fifth such hint writes nothing and leaves the state unchanged. -/
theorem C4_four_vsync_pulses (s : TouchState) (u1 u2 u3 u4 u5 : Int)
    (hd : s.touchboost_disable ≠ 1) (hb : s.vsync_boost = 1)
    (hc : s.vsync_count = 4) :
    touchWrites s [.vsync u1 true, .vsync u2 true, .vsync u3 true,
        .vsync u4 true, .vsync u5 true] = [["1"], ["1"], ["1"], ["1"], []] ∧
    (touchTrajectory s [.vsync u1 true, .vsync u2 true, .vsync u3 true,
        .vsync u4 true, .vsync u5 true]).map
        (fun u => (u.vsync_count, u.vsync_boost)) =
      [(3, 1), (2, 1), (1, 1), (0, 0), (0, 0)] ∧
    runTouch s [.vsync u1 true, .vsync u2 true, .vsync u3 true,
        .vsync u4 true, .vsync u5 true] =
      runTouch s [.vsync u1 true, .vsync u2 true, .vsync u3 true,
        .vsync u4 true] := by
  have e1 : vsyncStep s u1 true = ({ s with vsync_count := 3 }, ["1"]) := by
    rw [vsyncStep_boost_dec s u1 hd (by simp [hb]) (by simp [hc]) (by simp [hc])]
    simp [hc]
  have e2 : vsyncStep { s with vsync_count := (3 : Int) } u2 true =
      ({ s with vsync_count := 2 }, ["1"]) := by
    rw [vsyncStep_boost_dec { s with vsync_count := (3 : Int) } u2 hd
      (by simp [hb]) (by norm_num) (by norm_num)]
    norm_num
  have e3 : vsyncStep { s with vsync_count := (2 : Int) } u3 true =
      ({ s with vsync_count := 1 }, ["1"]) := by
    rw [vsyncStep_boost_dec { s with vsync_count := (2 : Int) } u3 hd
      (by simp [hb]) (by norm_num) (by norm_num)]
    norm_num
  have e4 : vsyncStep { s with vsync_count := (1 : Int) } u4 true =
      ({ s with vsync_count := 0
                vsync_boost := 0 }, ["1"]) := by
    rw [vsyncStep_boost_last { s with vsync_count := (1 : Int) } u4 hd
      (by simp [hb]) (by norm_num)]
  have e5 : vsyncStep { s with vsync_count := (0 : Int)
                               vsync_boost := (0 : Int) } u5 true =
      ({ s with vsync_count := 0
                vsync_boost := 0 }, []) :=
    vsyncStep_idle { s with vsync_count := (0 : Int), vsync_boost := (0 : Int) }
      u5 true hd rfl
  refine ⟨?_, ?_, ?_⟩
  · simp [touchWrites, touchStepWrites, touchStep, e1, e2, e3, e4, e5]
  · simp only [touchTrajectory, touchStep, e1, e2, e3, e4, e5, List.map]
    norm_num [hb]
  · simp [runTouch, touchStep, e1, e2, e3, e4, e5]

/-- Witness for `C4_four_vsync_pulses` at the vsync-boost state reached by
the first eight events of `scrollVsyncTrace`, with hints 16 ms apart. -/
theorem C4_four_vsync_pulses_witness :
    touchWrites ⟨0, 0, 1, 4, 6, 1060000000, 1060000000⟩
      [.vsync 1107000000 true, .vsync 1123000000 true, .vsync 1139000000 true,
       .vsync 1155000000 true, .vsync 1171000000 true] =
      [["1"], ["1"], ["1"], ["1"], []] :=
  (C4_four_vsync_pulses ⟨0, 0, 1, 4, 6, 1060000000, 1060000000⟩
    1107000000 1123000000 1139000000 1155000000 1171000000
    (by decide) rfl rfl).1

/-- C5 (counterexample): from the reachable scroll-mode state `scrollState`,
a vsync hint 31 ms after the last interaction with a *non-null* payload
leaves `vsync_count = 3`, not 4: the entry into vsync-boost mode is
immediately followed, inside the same hint, by a pulse write and a
decrement. -/
theorem C5_entry_count_counterexample :
    scrollState.touchboost_disable = 1 ∧
    1091000000 - scrollState.curr_time > VSYNC_TOUCH_TIME_NS ∧
    (vsyncStep scrollState 1091000000 true).1.vsync_count ≠ 4 := by decide

/-- C5 (amended): from any scroll-mode state, a vsync hint more than 30 ms
after the last recorded interaction exits scroll mode and enters vsync-boost
mode (`vsync_boost = 1`, `timer_set = 0`, `touchboost_disable = 0`); with a
null payload `vsync_count` is left at 4, while with a non-null payload the
same hint also writes one pulse and leaves `vsync_count = 3`. -/
theorem C5_scroll_exit_vsync_boost (s : TouchState) (now : Int)
    (hd : s.touchboost_disable = 1)
    (hgap : now - s.curr_time > VSYNC_TOUCH_TIME_NS) :
    vsyncStep s now false =
      ({ s with timer_set := 0
                vsync_boost := 1
                touchboost_disable := 0
                vsync_count := 4 }, []) ∧
    vsyncStep s now true =
      ({ s with timer_set := 0
                vsync_boost := 1
                touchboost_disable := 0
                vsync_count := 3 }, ["1"]) := by
  constructor
  · simp only [vsyncStep]
    rw [if_pos hd, if_pos hgap]
    norm_num [VSYNC_BOOST_COUNT]
  · simp only [vsyncStep]
    rw [if_pos hd, if_pos hgap]
    norm_num [VSYNC_BOOST_COUNT]

/-- Witness for `C5_scroll_exit_vsync_boost` at `scrollState` and a vsync
hint 31 ms after the last interaction. -/
theorem C5_scroll_exit_vsync_boost_witness :
    vsyncStep scrollState 1091000000 false =
      ({ scrollState with timer_set := 0
                          vsync_boost := 1
                          touchboost_disable := 0
                          vsync_count := 4 }, []) ∧
    vsyncStep scrollState 1091000000 true =
      ({ scrollState with timer_set := 0
                          vsync_boost := 1
                          touchboost_disable := 0
                          vsync_count := 3 }, ["1"]) :=
  C5_scroll_exit_vsync_boost scrollState 1091000000 rfl (by decide)

/-- Along interaction hints each at least 21 ms after their predecessor,
starting from a state with zero fast-tap counter and scroll mode off, every
visited state keeps the counter at zero and scroll mode off. -/
theorem spaced21_trajectory_zero : ∀ (ts : List Int) (s : TouchState),
    s.consecutive_touch_int = 0 → s.touchboost_disable = 0 →
    spaced21 s.prev_time ts →
    ∀ u ∈ touchTrajectory s (ts.map HintEv.interaction),
      u.consecutive_touch_int = 0 ∧ u.touchboost_disable = 0
  | [], s, _, _, _ => by simp [touchTrajectory]
  | t :: ts, s, hc, hd, hsp => by
    have hslow : ¬ (t - s.prev_time < SHORT_TOUCH_TIME_NS) := by
      have hgap := hsp.1
      simp only [GAP21_NS] at hgap
      simp only [SHORT_TOUCH_TIME_NS]
      omega
    have hstep := interactionStep_slow_zero s t hslow hc hd
    intro u hu
    simp only [List.map_cons, touchTrajectory, List.mem_cons] at hu
    rcases hu with rfl | hu
    · exact ⟨hstep.1, hstep.2.1⟩
    · refine spaced21_trajectory_zero ts (touchStep s (.interaction t))
        hstep.1 hstep.2.1 ?_ u hu
      rw [show (touchStep s (.interaction t)).prev_time = t from hstep.2.2]
      exact hsp.2

/-- C6: for every sequence of interaction hints spaced at least 21 ms apart
(the first being at least 21 ms after the reset instant `t0`), every state
visited keeps `consecutive_touch_int` at its reset value 0 and never has
scroll mode set. -/
theorem C6_spaced_taps_no_scroll (t0 : Int) (ts : List Int)
    (h : spaced21 t0 ts) :
    ∀ u ∈ touchTrajectory (resetState t0) (ts.map HintEv.interaction),
      u.consecutive_touch_int = 0 ∧ u.touchboost_disable = 0 :=
  spaced21_trajectory_zero ts (resetState t0) rfl rfl h

/-- Witness for `C6_spaced_taps_no_scroll`: hints at 30 ms and 60 ms from
`t0 = 0`; the state after the first hint is visited and is clean. -/
theorem C6_spaced_taps_no_scroll_witness :
    spaced21 0 [30000000, 60000000] ∧
    (resetState 30000000).consecutive_touch_int = 0 ∧
    (resetState 30000000).touchboost_disable = 0 := by
  have hsp : spaced21 0 [30000000, 60000000] := by
    norm_num [spaced21, GAP21_NS]
  exact ⟨hsp, C6_spaced_taps_no_scroll 0 [30000000, 60000000] hsp
    (resetState 30000000) (by decide)⟩

/-- C7 (counterexample): a short (partial) write — `write` returning 1 for
the 2-byte string `"40"` — is *not* reported as an error: `sysfs_write`
returns 0 (success), contradicting the claim that a short write is reported
to the caller as an error result. -/
theorem C7_short_write_counterexample :
    (0 : Int) ≤ (SysfsEnv.mk (some 3) 1).rwRet ∧
    (SysfsEnv.mk (some 3) 1).rwRet < (SCHEDTUNE_BOOST_INTERACTIVE.length : Int) ∧
    (sysfs_write (SysfsEnv.mk (some 3) 1) SCHEDTUNE_BOOST_PATH
      SCHEDTUNE_BOOST_INTERACTIVE).1 = 0 := by
  refine ⟨by decide, by decide, rfl⟩

/-- C7 (amended): `sysfs_write` and `sysfs_read` always return 0 or -1
(never fatal); an open failure yields -1 with no fd activity; whenever the
open succeeded the descriptor is closed exactly once, on the success path
and on the error path alike, and -1 is returned exactly when the single
`write`/`read` returned a negative value (a short transfer counts as
success). -/
theorem C7_sysfs_error_reporting (env : SysfsEnv) (path s : String) (len : Int) :
    ((sysfs_write env path s).1 = 0 ∨ (sysfs_write env path s).1 = -1) ∧
    ((sysfs_read env path len).1 = 0 ∨ (sysfs_read env path len).1 = -1) ∧
    (env.openFd = none →
      sysfs_write env path s = (-1, []) ∧ sysfs_read env path len = (-1, [])) ∧
    (∀ fd, env.openFd = some fd →
      (sysfs_write env path s).2 = [.opened fd, .closed fd] ∧
      (sysfs_read env path len).2 = [.opened fd, .closed fd] ∧
      ((sysfs_write env path s).1 = -1 ↔ env.rwRet < 0) ∧
      ((sysfs_read env path len).1 = -1 ↔ env.rwRet < 0)) := by
  obtain ⟨fd?, r⟩ := env
  cases fd? <;> simp [sysfs_write, sysfs_read]
  split_ifs <;> simp_all

/-- Witness for `C7_sysfs_error_reporting`: a failing `write` (return -1)
still closes the descriptor. -/
theorem C7_sysfs_error_reporting_witness :
    (sysfs_write (SysfsEnv.mk (some 3) (-1)) TOUCHBOOST_PULSE_SYSFS "1").2 =
      [.opened 3, .closed 3] :=
  ((C7_sysfs_error_reporting (SysfsEnv.mk (some 3) (-1)) TOUCHBOOST_PULSE_SYSFS
    "1" 1).2.2.2 3 rfl).1

end PowerHAL
